import Mathlib

/-!
Verification of the turn-processing core of the Adaptive Learning Agents
repository (`app/agents/student_agent.py`, `app/database.py`) against its
natural-language specification.

Python values are embedded as follows: machine strings are `String`,
dictionaries are association lists, Python `None` is `Option.none`,
functions that may raise are `Except Unit`-valued, and the external
language-model capability is a parameter `LLM`.  Characters that the
source manipulates (braces, quotes) are written via `Char.ofNat`.
-/

/-! ### Characters used by the tolerant JSON parser -/

def lbraceC : Char := Char.ofNat 123
def rbraceC : Char := Char.ofNat 125
def lbrackC : Char := Char.ofNat 91
def rbrackC : Char := Char.ofNat 93
def quoteC : Char := Char.ofNat 34
def backslashC : Char := Char.ofNat 92
def apostC : Char := Char.ofNat 39
def colonC : Char := Char.ofNat 58
def commaC : Char := Char.ofNat 44

/-- Whitespace characters recognised by Python `str.strip()` and by the
JSON grammar (the ASCII subset, which is all the source ever feeds in). -/
def isWsChar (c : Char) : Bool :=
  c = ' ' || c = Char.ofNat 9 || c = Char.ofNat 10 || c = Char.ofNat 13 ||
  c = Char.ofNat 11 || c = Char.ofNat 12

/-- Python `str.strip()` on a character list: drop whitespace at both ends. -/
def pyStripChars (cs : List Char) : List Char :=
  ((cs.dropWhile isWsChar).reverse.dropWhile isWsChar).reverse

def pyStrip (s : String) : String :=
  String.mk (pyStripChars s.data)

/-- Python `str.lower()` (ASCII subset used by the source keyword lists). -/
def toLowerStr (s : String) : String :=
  String.mk (s.data.map Char.toLower)

/-- Does `needle` start `hay`? (helper for substring containment). -/
def startsWithL : List Char → List Char → Bool
  | [], _ => true
  | _ :: _, [] => false
  | n :: ns, h :: hs => n = h && startsWithL ns hs

/-- Python substring test `needle in hay` on character lists. -/
def containsSubL (hay needle : List Char) : Bool :=
  match hay with
  | [] => needle.isEmpty
  | _ :: t => startsWithL needle hay || containsSubL t needle

/-- Python substring test `kw in message` on strings. -/
def containsSub (hay kw : String) : Bool :=
  containsSubL hay.data kw.data

/-! ### JSON values and a model of `json.loads`

`json.loads` is Python standard-library code, external to the repository.
It is modelled here by an executable recursive-descent parser over the
JSON fragment the repository exchanges with the model: `null`, booleans,
integers, strings without escape sequences, arrays and objects.  All
claim-level theorems that quantify over arbitrary text are stated for an
arbitrary parse function, so nothing is proved about inputs on which this
fragment and full JSON could differ. -/

inductive JVal where
  | jnull : JVal
  | jbool : Bool → JVal
  | jnum : Int → JVal
  | jstr : String → JVal
  | jarr : List JVal → JVal
  | jobj : List (String × JVal) → JVal

/-- Skip leading JSON whitespace. -/
def skipWs : List Char → List Char
  | [] => []
  | c :: cs => if isWsChar c then skipWs cs else c :: cs

/-- Parse the body of a JSON string literal (no escape sequences; a
backslash makes the parse fail, conservatively). -/
def pStrBody : List Char → Option (List Char × List Char)
  | [] => none
  | c :: cs =>
    if c = quoteC then some ([], cs)
    else if c = backslashC then none
    else match pStrBody cs with
      | some (body, rest) => some (c :: body, rest)
      | none => none

def isDigitC (c : Char) : Bool := '0' ≤ c && c ≤ '9'

/-- Split off a maximal run of digits. -/
def pDigits : List Char → (List Char × List Char)
  | [] => ([], [])
  | c :: cs =>
    if isDigitC c then
      let (ds, rest) := pDigits cs
      (c :: ds, rest)
    else ([], c :: cs)

def digitsToNat (ds : List Char) : Nat :=
  ds.foldl (fun acc c => acc * 10 + (c.toNat - 48)) 0

/-- Parse a JSON integer (optional minus sign, no leading zeros, no
fraction or exponent — the fragment the repository exercises). -/
def pInt (cs : List Char) : Option (Int × List Char) :=
  match cs with
  | [] => none
  | c :: rest =>
    if c = '-' then
      match pDigits rest with
      | ([], _) => none
      | (ds, rest2) =>
        if ds.length > 1 && ds.headD '0' = '0' then none
        else some (-(digitsToNat ds : Int), rest2)
    else
      match pDigits (c :: rest) with
      | ([], _) => none
      | (ds, rest2) =>
        if ds.length > 1 && ds.headD '0' = '0' then none
        else some ((digitsToNat ds : Int), rest2)

/-- Tasks of the fuelled JSON parser: a value, the items of an array
after its opening bracket, or the fields of an object after its opening
brace. -/
inductive PTask where
  | val : PTask
  | arrItems : PTask
  | objItems : PTask

/-- Results of the fuelled JSON parser. -/
inductive PRes where
  | v : JVal → PRes
  | items : List JVal → PRes
  | fields : List (String × JVal) → PRes

/-- Fuelled recursive-descent parser for the JSON fragment. -/
def pRun : Nat → PTask → List Char → Option (PRes × List Char)
  | 0, _, _ => none
  | Nat.succ f, PTask.val, cs =>
    match skipWs cs with
    | [] => none
    | c :: rest =>
      if c = 'n' then
        if startsWithL ['u', 'l', 'l'] rest then
          some (PRes.v JVal.jnull, rest.drop 3)
        else none
      else if c = 't' then
        if startsWithL ['r', 'u', 'e'] rest then
          some (PRes.v (JVal.jbool true), rest.drop 3)
        else none
      else if c = 'f' then
        if startsWithL ['a', 'l', 's', 'e'] rest then
          some (PRes.v (JVal.jbool false), rest.drop 4)
        else none
      else if c = quoteC then
        match pStrBody rest with
        | some (body, rest2) => some (PRes.v (JVal.jstr (String.mk body)), rest2)
        | none => none
      else if c = lbrackC then
        match skipWs rest with
        | c2 :: rest2 =>
          if c2 = rbrackC then some (PRes.v (JVal.jarr []), rest2)
          else
            match pRun f PTask.arrItems rest with
            | some (PRes.items xs, rest3) => some (PRes.v (JVal.jarr xs), rest3)
            | _ => none
        | [] => none
      else if c = lbraceC then
        match skipWs rest with
        | c2 :: rest2 =>
          if c2 = rbraceC then some (PRes.v (JVal.jobj []), rest2)
          else
            match pRun f PTask.objItems rest with
            | some (PRes.fields kvs, rest3) => some (PRes.v (JVal.jobj kvs), rest3)
            | _ => none
        | [] => none
      else
        match pInt (c :: rest) with
        | some (n, rest2) => some (PRes.v (JVal.jnum n), rest2)
        | none => none
  | Nat.succ f, PTask.arrItems, cs =>
    match pRun f PTask.val cs with
    | some (PRes.v x, rest) =>
      (match skipWs rest with
       | c :: rest2 =>
         if c = commaC then
           match pRun f PTask.arrItems rest2 with
           | some (PRes.items xs, rest3) => some (PRes.items (x :: xs), rest3)
           | _ => none
         else if c = rbrackC then some (PRes.items [x], rest2)
         else none
       | [] => none)
    | _ => none
  | Nat.succ f, PTask.objItems, cs =>
    match skipWs cs with
    | c :: rest =>
      if c = quoteC then
        match pStrBody rest with
        | some (key, rest2) =>
          (match skipWs rest2 with
           | c2 :: rest3 =>
             if c2 = colonC then
               match pRun f PTask.val rest3 with
               | some (PRes.v x, rest4) =>
                 (match skipWs rest4 with
                  | c3 :: rest5 =>
                    if c3 = commaC then
                      match pRun f PTask.objItems rest5 with
                      | some (PRes.fields kvs, rest6) =>
                        some (PRes.fields ((String.mk key, x) :: kvs), rest6)
                      | _ => none
                    else if c3 = rbraceC then
                      some (PRes.fields [(String.mk key, x)], rest5)
                    else none
                  | [] => none)
               | _ => none
             else none
           | [] => none)
        | none => none
      else none
    | [] => none

/-- Model of Python `json.loads` on the fragment above: parse one value
and require only whitespace to remain. `none` models a raised
`JSONDecodeError`. -/
def jsonLoads (s : String) : Option JVal :=
  match pRun (2 * s.length + 4) PTask.val s.data with
  | some (PRes.v v, rest) => if (skipWs rest).isEmpty then some v else none
  | _ => none

/-- Model of `json.loads` with Python exception semantics made explicit. -/
def jsonLoadsE (s : String) : Except Unit JVal :=
  match jsonLoads s with
  | some v => Except.ok v
  | none => Except.error ()

/-! ### The tolerant parser `_safe_extract_json`
(`app/agents/student_agent.py`, lines 122-138). -/

/-- Index of the first occurrence of `c` in `cs`, if any. -/
def firstIdx (c : Char) (cs : List Char) : Option Nat :=
  match cs with
  | [] => none
  | x :: t => if x = c then some 0 else (firstIdx c t).map Nat.succ

/-- Index of the last occurrence of `c` in `cs`, if any. -/
def lastIdx (c : Char) (cs : List Char) : Option Nat :=
  (firstIdx c cs.reverse).map (fun k => cs.length - 1 - k)

/-- The span matched by `re.search(r"(\{.*\})", text, re.DOTALL)`: with a
greedy `.*` and leftmost matching this is the segment from the first
opening brace to the last closing brace, provided the latter comes after
the former; otherwise there is no match. -/
def braceSpan (s : String) : Option String :=
  match firstIdx lbraceC s.data, lastIdx rbraceC s.data with
  | some i, some j =>
    if i < j then some (String.mk ((s.data.drop i).take (j - i + 1))) else none
  | _, _ => none

/-- Model of `_safe_extract_json` with `json.loads` as a parameter carrying Python
exception semantics.  The whole body sits in one `try`: if a brace span is
found, the function returns the result of parsing the span, and a parse
failure there lands in the `except` branch, which returns `None` — the
direct parse of the stripped text is reached only when no span exists. -/
def safeExtractJson (loads : String → Except Unit JVal) (text : String) :
    Option JVal :=
  let body : Except Unit JVal :=
    match braceSpan text with
    | some sp => loads sp
    | none => loads (pyStrip text)
  match body with
  | Except.ok v => some v
  | Except.error _ => none

/-- Modelled from the spec: the algorithm CLAIMS.json C1 ascribes to
`_safe_extract_json` — parse the brace span, and "if that parse fails or
no span is found" fall back to parsing the trimmed text directly.  This
is the comparison point for the refinement claim; the source function is
`safeExtractJson` above. -/
def extractStructuredSpec (loads : String → Except Unit JVal)
    (text : String) : Option JVal :=
  match braceSpan text with
  | some sp =>
    match loads sp with
    | Except.ok v => some v
    | Except.error _ =>
      match loads (pyStrip text) with
      | Except.ok v => some v
      | Except.error _ => none
  | none =>
    match loads (pyStrip text) with
    | Except.ok v => some v
    | Except.error _ => none

/-- The first spec example input: a JSON object followed by trailing
prose (braces written as hex escapes). -/
def exJsonTrailing : String := "\x7b\x22a\x22:1\x7d trailing text"

/-- The second spec example input: no structured data at all. -/
def exNoJson : String := "no json here"

/-- Input separating the source from the spec wording: a JSON array of
two strings whose contents are an opening and a closing brace.  The brace
span is the unparsable fragment between the braces, while the whole
trimmed text is valid JSON. -/
def exSpanFails : String := "[\x22\x7b\x22, \x22\x7d\x22]"

example : braceSpan exJsonTrailing = some "\x7b\x22a\x22:1\x7d" := by rfl
example : jsonLoads "\x7b\x22a\x22:1\x7d" = some (JVal.jobj [("a", JVal.jnum 1)]) := by rfl
example : safeExtractJson jsonLoadsE exJsonTrailing
    = some (JVal.jobj [("a", JVal.jnum 1)]) := by rfl
example : safeExtractJson jsonLoadsE exNoJson = none := by rfl
example : safeExtractJson jsonLoadsE exSpanFails = none := by rfl
example : extractStructuredSpec jsonLoadsE exSpanFails
    = some (JVal.jarr [JVal.jstr "\x7b", JVal.jstr "\x7d"]) := by rfl

/-! ### Python dictionaries and the profile-merge primitives
(`app/database.py`, `update_user_profile`, lines 97-139). -/

/-- Python dictionaries with `String` keys: association lists in key
insertion order (Python dicts preserve insertion order; `update`
overwrites values of existing keys in place and appends new keys). -/
abbrev PyDict (α : Type) := List (String × α)

/-- Assign `d[k] = v`: overwrite in place when the key exists, append
otherwise. -/
def setKey {α : Type} (d : PyDict α) (k : String) (v : α) : PyDict α :=
  if d.any (fun e => e.1 = k) then
    d.map (fun e => if e.1 = k then (k, v) else e)
  else d ++ [(k, v)]

/-- Python `d.update(patch)`: the shallow key-wise union used for the
three mapping fields of the profile. -/
def dictUpdate {α : Type} (d patch : PyDict α) : PyDict α :=
  patch.foldl (fun acc e => setKey acc e.1 e.2) d

/-- The merge of `learning_challenges`:
`list(set(current + new))` removes duplicates with no order guarantee;
it is modelled by the canonical duplicate-free list of the concatenation,
which carries the same set of entries. -/
def mergeChallenges (cur new : List String) : List String :=
  (cur ++ new).dedup

/-- Every entry of `d` with key `k` carries value `v`, and some entry
does have key `k`. -/
def HasVal {α : Type} (d : PyDict α) (k : String) (v : α) : Prop :=
  (∃ e ∈ d, e.1 = k) ∧ ∀ e ∈ d, e.1 = k → e.2 = v

theorem mapSelf {α : Type} {f : α → α} :
    ∀ {l : List α}, (∀ e ∈ l, f e = e) → l.map f = l
  | [], _ => rfl
  | a :: t, h => by
    simp only [List.map_cons, h a (by simp)]
    rw [mapSelf (fun e he => h e (by simp [he]))]

theorem setKey_hasVal {α : Type} (d : PyDict α) (k : String) (v : α) :
    HasVal (setKey d k v) k v := by
  unfold setKey
  by_cases h : d.any (fun e => e.1 = k)
  · simp only [h, if_true]
    obtain ⟨e, he, hek⟩ := List.any_eq_true.mp h
    simp only [decide_eq_true_eq] at hek
    constructor
    · exact ⟨(k, v), List.mem_map.mpr ⟨e, he, by simp [hek]⟩, rfl⟩
    · intro e' he' _
      obtain ⟨a, _, hfa⟩ := List.mem_map.mp he'
      by_cases hak : a.1 = k
      · simp [hak] at hfa; simp [← hfa]
      · simp only [if_neg hak] at hfa
        subst hfa
        simp_all
  · rw [if_neg h]
    have hfalse : d.any (fun e => e.1 = k) = false := by
      cases hx : d.any (fun e => e.1 = k) with
      | false => rfl
      | true => exact absurd hx h
    have hall : ∀ e ∈ d, ¬(e.1 = k) := by
      intro e he
      simpa using List.any_eq_false.mp hfalse e he
    constructor
    · exact ⟨(k, v), by simp, rfl⟩
    · intro e he hek
      rcases List.mem_append.mp he with hd | hs
      · exact absurd hek (hall e hd)
      · simp at hs; simp [hs]

theorem setKey_hasVal_ne {α : Type} {d : PyDict α} {k : String} {v : α}
    (k' : String) (v' : α) (hne : k' ≠ k) (h : HasVal d k v) :
    HasVal (setKey d k' v') k v := by
  obtain ⟨⟨e, he, hek⟩, hall⟩ := h
  unfold setKey
  by_cases hp : d.any (fun e => e.1 = k')
  · rw [if_pos hp]
    constructor
    · refine ⟨e, List.mem_map.mpr ⟨e, he, ?_⟩, hek⟩
      rw [if_neg (by rw [hek]; exact fun hh => hne hh.symm)]
    · intro e' he' he'k
      obtain ⟨a, ha, hfa⟩ := List.mem_map.mp he'
      by_cases hak : a.1 = k'
      · rw [if_pos hak] at hfa
        subst hfa
        exact absurd (show k' = k by simpa using he'k) hne
      · rw [if_neg hak] at hfa
        subst hfa
        exact hall a ha he'k
  · rw [if_neg hp]
    constructor
    · exact ⟨e, List.mem_append.mpr (Or.inl he), hek⟩
    · intro e' he' he'k
      rcases List.mem_append.mp he' with hd | hs
      · exact hall e' hd he'k
      · simp at hs
        subst hs
        exact absurd (show k' = k by simpa using he'k) hne

theorem dictUpdate_hasVal {α : Type} {k : String} {v : α} :
    ∀ (p : PyDict α) (d : PyDict α), HasVal d k v → (∀ e ∈ p, e.1 ≠ k) →
    HasVal (dictUpdate d p) k v
  | [], _, h, _ => h
  | e :: t, d, h, hp => by
    have step : dictUpdate d (e :: t) = dictUpdate (setKey d e.1 e.2) t := rfl
    rw [step]
    exact dictUpdate_hasVal t _
      (setKey_hasVal_ne e.1 e.2 (hp e (by simp)) h)
      (fun e' he' => hp e' (by simp [he']))

theorem setKey_of_hasVal {α : Type} {d : PyDict α} {k : String} {v : α}
    (h : HasVal d k v) : setKey d k v = d := by
  obtain ⟨⟨e, he, hek⟩, hall⟩ := h
  unfold setKey
  rw [if_pos (List.any_eq_true.mpr ⟨e, he, by simp [hek]⟩)]
  apply mapSelf
  intro a ha
  by_cases hak : a.1 = k
  · rw [if_pos hak]
    have := hall a ha hak
    cases a
    simp_all
  · rw [if_neg hak]

/-- Applying a Python `dict.update` twice with the same patch (whose keys
are distinct, as they are for any dict-derived patch) gives the same
dictionary as applying it once. -/
theorem dictUpdate_idem {α : Type} :
    ∀ (p : PyDict α), (p.map Prod.fst).Nodup →
    ∀ (d : PyDict α), dictUpdate (dictUpdate d p) p = dictUpdate d p
  | [], _, _ => rfl
  | (k, v) :: t, hnd, d => by
    have hk : ∀ e ∈ t, e.1 ≠ k := by
      intro e he heq
      have : k ∈ t.map Prod.fst := List.mem_map.mpr ⟨e, he, heq⟩
      simp only [List.map_cons, List.nodup_cons] at hnd
      exact hnd.1 this
    have hnd' : (t.map Prod.fst).Nodup := by
      simp only [List.map_cons, List.nodup_cons] at hnd
      exact hnd.2
    have step : ∀ d', dictUpdate d' ((k, v) :: t) = dictUpdate (setKey d' k v) t :=
      fun _ => rfl
    rw [step, step d]
    have hD : HasVal (dictUpdate (setKey d k v) t) k v :=
      dictUpdate_hasVal t _ (setKey_hasVal d k v) hk
    rw [setKey_of_hasVal hD]
    exact dictUpdate_idem t hnd' (setKey d k v)

theorem union_subset_eq {α : Type} [DecidableEq α] :
    ∀ {l m : List α}, (∀ a ∈ l, a ∈ m) → l ∪ m = m
  | [], _, _ => by simp
  | a :: t, m, h => by
    rw [List.cons_union, union_subset_eq (fun x hx => h x (by simp [hx]))]
    exact List.insert_of_mem (h a (by simp))

theorem union_right_idem {α : Type} [DecidableEq α] :
    ∀ (l m : List α), (l ∪ m) ∪ m = l ∪ m
  | [], m => by
    simp only [List.nil_union]
    exact union_subset_eq (fun a ha => ha)
  | a :: t, m => by
    rw [List.cons_union]
    by_cases h : a ∈ t ∪ m
    · rw [List.insert_of_mem h]
      exact union_right_idem t m
    · rw [List.insert_of_not_mem h, List.cons_union, union_right_idem t m]
      exact List.insert_of_not_mem h

/-- Re-merging the same new challenges is a no-op: the set-like union of
`learning_challenges` is idempotent. -/
theorem mergeChallenges_idem (c n : List String) :
    mergeChallenges (mergeChallenges c n) n = mergeChallenges c n := by
  unfold mergeChallenges
  rw [List.dedup_append, List.dedup_append]
  exact union_right_idem c n.dedup

/-! ### Data model

Stored profiles (`app/models.py` + `app/database.py`), conversation rows,
the in-memory database, profile-update patches, and the langgraph
`StudentState` record (`app/agents/student_agent.py`, lines 20-44). -/

/-- One row of the `conversations` table (fields the core reads/writes;
`created_at` is represented by insertion order in `DB.conversations`,
which `get_conversation_history` sorts by). -/
structure ConvRecord where
  wallet_address : String
  role : String
  content : String
deriving DecidableEq

/-- One row of the `user_profiles` table, restricted to the columns the
turn-processing core touches.  Timestamps are abstract `Nat` instants. -/
structure DBProfile where
  wallet_address : String
  email : Option String := none
  display_name : Option String := none
  career_context : PyDict JVal := []
  skill_profile : PyDict JVal := []
  learning_preferences : PyDict JVal := []
  learning_challenges : List String := []
  total_conversations : Nat := 0
  last_active : Nat := 0

/-- The agent database: profile rows and conversation rows. -/
structure DB where
  profiles : List DBProfile := []
  conversations : List ConvRecord := []

/-- A profile-update patch (the `updates` dict of `update_user_profile`).
`some` on a field models key presence; for the scalar identity fields the
carried value is itself optional, so a present-but-null Python value is
`some none`. -/
structure Updates where
  career_context : Option (PyDict JVal) := none
  skill_profile : Option (PyDict JVal) := none
  learning_preferences : Option (PyDict JVal) := none
  learning_challenges : Option (List String) := none
  email : Option (Option String) := none
  display_name : Option (Option String) := none

/-- Python truthiness of the `updates` dict: empty means falsy. -/
def Updates.isEmpty (u : Updates) : Bool :=
  u.career_context.isNone && u.skill_profile.isNone &&
  u.learning_preferences.isNone && u.learning_challenges.isNone &&
  u.email.isNone && u.display_name.isNone

/-- One role/content message, as stored in `conversation_history` and as
sent to the model (`created_at` of history rows is dropped: no consumer
reads it). -/
structure Msg where
  role : String
  content : String
deriving DecidableEq

/-- The dict returned by `get_user_profile` and threaded through the
graph as `state["user_profile"]` (`app/database.py`, lines 67-84). -/
structure Snapshot where
  wallet_address : String := ""
  email : Option String := none
  display_name : Option String := none
  career_context : PyDict JVal := []
  skill_profile : PyDict JVal := []
  learning_preferences : PyDict JVal := []
  learning_challenges : List String := []
  total_conversations : Nat := 0
  last_active : Nat := 0

/-- The langgraph state record (`StudentState`, lines 20-44 of
`student_agent.py`).  `conversation_history` is the one channel with an
`operator.add` reducer; the pipeline functions below apply that reducer
explicitly. -/
structure StudentState where
  wallet_address : String
  user_profile : Snapshot := {}
  conversation_history : List Msg := []
  conversation_summary : String := ""
  completed_courses : Option (List (PyDict JVal)) := none
  current_course_id : Option Int := none
  current_chapter : Option Int := none
  current_chapter_title : Option String := none
  current_chapter_summary : Option String := none
  last_message : String := ""
  mode : String := "general"
  onboarding_data : Option (PyDict JVal) := none
  onboarding_results : Option JVal := none
  response : String := ""
  profile_updates : Updates := {}

/-! ### Python truthiness helpers -/

/-- Truthiness of a decoded JSON value (Python `bool(x)`). -/
def jvalTruthy : JVal → Bool
  | JVal.jnull => false
  | JVal.jbool b => b
  | JVal.jnum n => n != 0
  | JVal.jstr s => !s.isEmpty
  | JVal.jarr l => !l.isEmpty
  | JVal.jobj d => !d.isEmpty

/-- Python `d.get(k)`: value of the last binding of `k`, if any. -/
def dictGet {α : Type} (d : PyDict α) (k : String) : Option α :=
  (d.reverse.find? (fun e => e.1 == k)).map (fun e => e.2)

/-- Python `x or y` for an optional string (`None` and `""` are falsy). -/
def pyOrStr (v : Option String) (dflt : String) : String :=
  match v with
  | some s => if s.isEmpty then dflt else s
  | none => dflt

/-- Python `x or y` for an optional JSON value. -/
def pyOrJ (v : Option JVal) (dflt : JVal) : JVal :=
  match v with
  | some x => if jvalTruthy x then x else dflt
  | none => dflt

/-- Truthiness of `state.get("onboarding_data")`: a missing payload and
an empty dict are both falsy. -/
def truthyOnb (od : Option (PyDict JVal)) : Bool :=
  match od with
  | some d => !d.isEmpty
  | none => false

/-- Truthiness of `state.get("completed_courses")`. -/
def truthyCourses (cc : Option (List (PyDict JVal))) : Bool :=
  match cc with
  | some l => !l.isEmpty
  | none => false

/-- Truthiness of `state["current_course_id"]` (`None` and `0` falsy). -/
def truthyCourseId (cid : Option Int) : Bool :=
  match cid with
  | some n => n != 0
  | none => false

/-! ### Database operations (`app/database.py`) -/

/-- Model of `db.query(UserProfile).filter_by(wallet_address=...).first()`. -/
def findProfile (db : DB) (w : String) : Option DBProfile :=
  db.profiles.find? (fun p => p.wallet_address == w)

/-- Replace the profile row keyed by `w`. -/
def setProfile (db : DB) (w : String) (p' : DBProfile) : DB :=
  { db with profiles := db.profiles.map (fun q => if q.wallet_address == w then p' else q) }

/-- A freshly created profile row (`create_user_profile` with only the
wallet address; all other columns take their model defaults). -/
def newProfile (w : String) : DBProfile := { wallet_address := w }

/-- Commit events issued against the database session.  Each constructor
corresponds to one `db.commit()` call in `app/database.py`. -/
inductive DbCommit where
  | createProfile (wallet : String)
  | profilePatch (wallet : String)
  | conversation (wallet role content : String)
deriving DecidableEq

/-- Model of `create_user_profile` (lines 86-95): insert a fresh row, one commit. -/
def create_user_profile (db : DB) (w : String) : DB × List DbCommit :=
  ({ db with profiles := db.profiles ++ [newProfile w] }, [DbCommit.createProfile w])

/-- The pure field-merge part of `update_user_profile` (lines 105-135):
mapping fields merge key-wise, `learning_challenges` merges as a set,
`email` and `display_name` are overwritten whenever the key is present in
the patch, and `last_active` is stamped unconditionally.  The four field
updates in the source are independent, so the sequential statements are
expressed as one record update. -/
def applyUpdates (p : DBProfile) (u : Updates) (now : Nat) : DBProfile :=
  { p with
    career_context :=
      match u.career_context with
      | some d => dictUpdate p.career_context d
      | none => p.career_context,
    skill_profile :=
      match u.skill_profile with
      | some d => dictUpdate p.skill_profile d
      | none => p.skill_profile,
    learning_preferences :=
      match u.learning_preferences with
      | some d => dictUpdate p.learning_preferences d
      | none => p.learning_preferences,
    learning_challenges :=
      match u.learning_challenges with
      | some n => mergeChallenges p.learning_challenges n
      | none => p.learning_challenges,
    email :=
      match u.email with
      | some v => v
      | none => p.email,
    display_name :=
      match u.display_name with
      | some v => v
      | none => p.display_name,
    last_active := now }

/-- Model of `update_user_profile` (lines 97-139): fetch (creating the row first
if absent — an extra commit), merge, commit. -/
def update_user_profile (db : DB) (w : String) (u : Updates) (now : Nat) :
    DB × List DbCommit :=
  let fetched : DB × List DbCommit × DBProfile :=
    match findProfile db w with
    | some p => (db, [], p)
    | none =>
      let (db1, ev1) := create_user_profile db w
      (db1, ev1, newProfile w)
  let (db1, ev1, p) := fetched
  (setProfile db1 w (applyUpdates p u now), ev1 ++ [DbCommit.profilePatch w])

/-- Model of `save_conversation` (lines 143-177): append the row, bump the
caller's conversation counter and `last_active`, commit. -/
def save_conversation (db : DB) (now : Nat) (w role content : String) :
    DB × List DbCommit :=
  let db1 := { db with conversations := db.conversations ++ [⟨w, role, content⟩] }
  let db2 :=
    match findProfile db1 w with
    | some p =>
      setProfile db1 w
        { p with total_conversations := p.total_conversations + 1, last_active := now }
    | none => db1
  (db2, [DbCommit.conversation w role content])

/-- Model of `get_conversation_history` (lines 179-205) as called by
`load_context`: newest `limit` rows for the wallet, returned oldest
first. -/
def get_conversation_history (db : DB) (w : String) (limit : Nat) : List Msg :=
  (((db.conversations.filter (fun r => r.wallet_address == w)).reverse.take limit).reverse).map
    (fun r => ⟨r.role, r.content⟩)

/-- The dict view built by `get_user_profile` (lines 67-84). -/
def toSnapshot (p : DBProfile) : Snapshot :=
  { wallet_address := p.wallet_address
    email := p.email
    display_name := p.display_name
    career_context := p.career_context
    skill_profile := p.skill_profile
    learning_preferences := p.learning_preferences
    learning_challenges := p.learning_challenges
    total_conversations := p.total_conversations
    last_active := p.last_active }

def get_user_profile (db : DB) (w : String) : Option Snapshot :=
  (findProfile db w).map toSnapshot

/-! ### The agent pipeline (`app/agents/student_agent.py`)

The language model (`self.llm.invoke` plus `_extract_text_from_response`)
is an external capability; it is a parameter of type `LLM`, with
`Except.error` modelling a raised exception.  Prompt strings are
assembled from the state exactly where the source assembles them; their
boilerplate wording is abbreviated, as no claim depends on prompt
contents (every theorem holds for an arbitrary model function). -/

def LLM : Type := List Msg → Except Unit String

/-! #### `determine_mode` (lines 167-209) -/

def progressKws : List String := ["progress", "how am i doing", "stats"]
def recommendKws : List String := ["what next", "recommend", "what should i"]
def recommendKws2 : List String := ["what should i learn", "what course"]
def reviewKws : List String := ["progress", "completed", "achievement"]
def careerKws : List String := ["career", "job", "become a", "work as"]

/-- Python `any(kw in message for kw in kws)`. -/
def anyKw (kws : List String) (message : String) : Bool :=
  kws.any (fun kw => containsSub message kw)

/-- The rule-based mode classifier. -/
def determine_mode (s : StudentState) : StudentState :=
  let message := toLowerStr s.last_message
  let mode :=
    if truthyOnb s.onboarding_data then "onboarding"
    else if !truthyCourses s.completed_courses && s.user_profile.career_context.isEmpty then
      "career"
    else if truthyCourseId s.current_course_id then
      if anyKw progressKws message then "progress"
      else if anyKw recommendKws message then "recommendation"
      else if anyKw recommendKws2 message then "recommendation"
      else "learning"
    else if anyKw reviewKws message then "progress"
    else if anyKw careerKws message then "career"
    else "general"
  { s with mode := mode }

/-! #### `summarize_conversation_if_needed` (lines 211-250) -/

/-- Python `history[-5:]`. -/
def lastN {α : Type} (n : Nat) (l : List α) : List α :=
  (l.reverse.take n).reverse

/-- Flattened rendering of the turns being evicted (stands in for
`json.dumps(to_summarize, indent=2)`; opaque to the model parameter). -/
def dumpMsgs (msgs : List Msg) : String :=
  msgs.foldl (fun acc m => acc ++ m.role ++ ": " ++ m.content ++ "\n") ""

/-- The summarization prompt (lines 226-238). -/
def summaryPrompt (summary : String) (toSummarize : List Msg) : String :=
  "Summarize this conversation history into a concise summary\n" ++
  "Previous summary: " ++ (if summary.isEmpty then "None" else summary) ++
  "\n\nConversation to summarize:\n" ++ dumpMsgs toSummarize ++
  "\nReturn a brief summary (2-3 sentences)"

/-- The history summarizer.  Note there is no exception handling around
the model call: a model failure propagates out of the node. -/
def summarize_conversation_if_needed (llm : LLM) (s : StudentState) :
    Except Unit StudentState :=
  let history := s.conversation_history
  let summary := s.conversation_summary
  if history.length > 15 then
    let recent := lastN 5 history
    let toSummarize := history.take (history.length - 5)
    if toSummarize.isEmpty then Except.ok s
    else
      match llm [⟨"user", summaryPrompt summary toSummarize⟩] with
      | Except.error e => Except.error e
      | Except.ok t =>
        Except.ok { s with conversation_history := recent, conversation_summary := t }
  else Except.ok s

/-! #### Mode handlers (lines 252-603) -/

/-- Difficulty keywords of the learning handler (line 490). -/
def difficultyKws : List String :=
  ["don" ++ String.singleton apostC ++ "t understand", "confused", "stuck", "difficult"]

/-- Title of a completed-course dict: `c.get('title', 'Unknown')`. -/
def courseTitle (c : PyDict JVal) : String :=
  match dictGet c "title" with
  | some (JVal.jstr s) => s
  | _ => "Unknown"

/-- Render a JSON value reached by the onboarding reply path into the
`response` string field. -/
def jvalAsStr : JVal → String
  | JVal.jstr s => s
  | _ => ""

/-- Python `s.strip(chars)`: drop characters of the set from both ends. -/
def pyStripSet (s : String) (set : String) : String :=
  String.mk (((s.data.dropWhile (fun c => set.data.contains c)).reverse.dropWhile
    (fun c => set.data.contains c)).reverse)

/-- Model of `career_guidance` (lines 344-445): one conversational model call, one
extraction call whose JSON (after stripping code fences) may add new
facts onto the existing career context. -/
def career_guidance (llm : LLM) (s : StudentState) : Except Unit StudentState :=
  let profile := s.user_profile
  let careerCtx := profile.career_context
  let systemPrompt :=
    "You are a career guidance AI.\nUser Context:\n" ++ s.conversation_summary ++
    dumpMsgs [] ++ "Current status: " ++
    jvalAsStr (pyOrJ (dictGet careerCtx "current_status") (JVal.jstr "unknown"))
  let messages := ⟨"system", systemPrompt⟩ :: s.conversation_history ++
    [⟨"user", s.last_message⟩]
  match llm messages with
  | Except.error e => Except.error e
  | Except.ok response =>
    let extractionPrompt :=
      "From this conversation, extract any NEW career-related information as JSON.\n" ++
      "User message: " ++ s.last_message ++ "\nYour response: " ++ response
    match llm [⟨"user", extractionPrompt⟩] with
    | Except.error e => Except.error e
    | Except.ok extraction =>
      let stripped := pyStripSet (pyStripSet extraction "```json") "```"
      let newCareerData :=
        match jsonLoads stripped with
        | some v => v
        | none => JVal.jobj []
      match newCareerData with
      | JVal.jobj kvs =>
        let updates : Updates :=
          if !kvs.isEmpty && kvs.any (fun e => jvalTruthy e.2) then
            let u0 := careerCtx
            let u1 :=
              match dictGet kvs "target_role" with
              | some v => if jvalTruthy v then setKey u0 "target_role" v else u0
              | none => u0
            let u2 :=
              match dictGet kvs "timeline" with
              | some v => if jvalTruthy v then setKey u1 "career_timeline" v else u1
              | none => u1
            let u3 :=
              match dictGet kvs "motivation" with
              | some v => if jvalTruthy v then setKey u2 "primary_motivation" v else u2
              | none => u2
            { career_context := some u3 }
          else {}
        Except.ok { s with response := response, profile_updates := updates }
      | other =>
        -- a truthy non-dict extraction reaches `.get` and raises
        if jvalTruthy other then Except.error ()
        else Except.ok { s with response := response, profile_updates := {} }

/-- The hard-coded fallback recommendations of the onboarding handler
(lines 314-320). -/
def onboardingDefaults : JVal :=
  JVal.jobj
    [("careerProfile", JVal.jstr "Analysis pending profile review."),
     ("courseMatchAnalysis",
      JVal.jstr "The selected course aligns with standard industry paths."),
     ("suggestedCourses", JVal.jarr []),
     ("additionalNotes",
      JVal.jstr "Complete the first module to unlock personalized insights.")]

/-- Model of `handle_onboarding` (lines 252-342): with a truthy payload, one
strict-JSON model call parsed by `_safe_extract_json`, then field-by-field
null-safety; with no payload, fall through to `career_guidance`. -/
def handle_onboarding (llm : LLM) (s : StudentState) : Except Unit StudentState :=
  if !truthyOnb s.onboarding_data then career_guidance llm s
  else
    let messages : List Msg :=
      [⟨"system", "You are a Career Data Engine. You output ONLY valid JSON."⟩,
       ⟨"user", "Analyze this profile and return a JSON object."⟩]
    match llm messages with
    | Except.error e => Except.error e
    | Except.ok rawText =>
      match safeExtractJson jsonLoadsE rawText with
      | none =>
        Except.ok
          { s with
            onboarding_results := some onboardingDefaults
            response := "Analysis pending profile review."
            mode := "onboarding" }
      | some v =>
        if !jvalTruthy v then
          Except.ok
            { s with
              onboarding_results := some onboardingDefaults
              response := "Analysis pending profile review."
              mode := "onboarding" }
        else
          match v with
          | JVal.jobj kvs =>
            let sanitized : JVal :=
              JVal.jobj
                [("careerProfile",
                  pyOrJ (dictGet kvs "careerProfile") (JVal.jstr "Summary unavailable.")),
                 ("courseMatchAnalysis",
                  pyOrJ (dictGet kvs "courseMatchAnalysis")
                    (JVal.jstr "Analysis unavailable.")),
                 ("suggestedCourses",
                  pyOrJ (dictGet kvs "suggestedCourses") (JVal.jarr [])),
                 ("additionalNotes",
                  pyOrJ (dictGet kvs "additionalNotes") (JVal.jstr ""))]
            Except.ok
              { s with
                onboarding_results := some sanitized
                response := jvalAsStr
                  (pyOrJ (dictGet kvs "careerProfile") (JVal.jstr "Summary unavailable."))
                mode := "onboarding" }
          | _ =>
            -- a truthy non-dict parse reaches `.get` and raises
            Except.error ()

/-- Model of `learning_assistance` (lines 447-505): one model call, then local
difficulty-keyword detection.  In CPython the `challenges` list is the
very list object held by `state["user_profile"]`, and `append` mutates it
in place; the embedding therefore writes the updated list both into the
returned snapshot and into the patch. -/
def learning_assistance (llm : LLM) (s : StudentState) : Except Unit StudentState :=
  let systemPrompt :=
    "You are a learning assistant.\nCurrent Chapter: " ++
    (pyOrStr s.current_chapter_title "Unknown") ++ "\n" ++
    (pyOrStr s.current_chapter_summary "No summary available")
  let messages := ⟨"system", systemPrompt⟩ :: s.conversation_history ++
    [⟨"user", s.last_message⟩]
  match llm messages with
  | Except.error e => Except.error e
  | Except.ok responseText =>
    if anyKw difficultyKws (toLowerStr s.last_message) then
      let challenges := s.user_profile.learning_challenges
      let topic := pyOrStr s.current_chapter_title "Current chapter"
      let challenges' :=
        if challenges.contains topic then challenges else challenges ++ [topic]
      Except.ok
        { s with
          response := responseText
          user_profile := { s.user_profile with learning_challenges := challenges' }
          profile_updates := { learning_challenges := some challenges' } }
    else
      Except.ok { s with response := responseText, profile_updates := {} }

/-- Model of `progress_review` (lines 507-546): iterating
`state["completed_courses"]` raises when it is `None`. -/
def progress_review (llm : LLM) (s : StudentState) : Except Unit StudentState :=
  match s.completed_courses with
  | none => Except.error ()
  | some completed =>
    let systemPrompt :=
      "You are showing a student their learning progress.\nYou have completed " ++
      toString completed.length ++ " courses:\n" ++
      String.join (completed.map (fun c => courseTitle c ++ "\n")) ++
      (match s.current_course_id with
       | some n => "Course ID " ++ toString n
       | none => "No active course")
    let messages : List Msg := [⟨"system", systemPrompt⟩, ⟨"user", s.last_message⟩]
    match llm messages with
    | Except.error e => Except.error e
    | Except.ok t => Except.ok { s with response := t }

/-- Model of `course_recommendation` (lines 548-583): also iterates the
completed-course list, so `None` raises. -/
def course_recommendation (llm : LLM) (s : StudentState) : Except Unit StudentState :=
  match s.completed_courses with
  | none => Except.error ()
  | some completed =>
    let systemPrompt :=
      "You are a course recommendation assistant.\nUser wants to become: " ++
      jvalAsStr (pyOrJ (dictGet s.user_profile.career_context "target_role")
        (JVal.jstr "Web3 developer")) ++
      "\nThey have completed:\n" ++
      String.join (completed.map (fun c => courseTitle c ++ "\n"))
    let messages : List Msg := [⟨"system", systemPrompt⟩, ⟨"user", s.last_message⟩]
    match llm messages with
    | Except.error e => Except.error e
    | Except.ok t => Except.ok { s with response := t }

/-- Model of `general_conversation` (lines 585-603). -/
def general_conversation (llm : LLM) (s : StudentState) : Except Unit StudentState :=
  let systemPrompt := "You are a friendly learning companion."
  let messages := ⟨"system", systemPrompt⟩ :: s.conversation_history ++
    [⟨"user", s.last_message⟩]
  match llm messages with
  | Except.error e => Except.error e
  | Except.ok t => Except.ok { s with response := t }

/-- The conditional edge of the graph (lines 97-108): dispatch on the
detected mode string. -/
def dispatchMode (llm : LLM) (s : StudentState) : Except Unit StudentState :=
  if s.mode = "onboarding" then handle_onboarding llm s
  else if s.mode = "career" then career_guidance llm s
  else if s.mode = "learning" then learning_assistance llm s
  else if s.mode = "progress" then progress_review llm s
  else if s.mode = "recommendation" then course_recommendation llm s
  else if s.mode = "general" then general_conversation llm s
  else Except.error ()

/-! #### `load_context`, persistence node and the compiled graph
(lines 73-120, 140-165, 605-625) -/

/-- Model of `load_context` (lines 140-165): read profile (creating it if absent,
which commits) and the ten newest history rows, reset the patch. -/
def load_context (db : DB) (s : StudentState) :
    StudentState × DB × List DbCommit :=
  let w := s.wallet_address
  let history := get_conversation_history db w 10
  match get_user_profile db w with
  | some snap =>
    ({ s with
       user_profile := snap
       conversation_history := history
       conversation_summary := s.conversation_summary
       profile_updates := {} }, db, [])
  | none =>
    let (db1, ev1) := create_user_profile db w
    let snap := (get_user_profile db1 w).getD {}
    ({ s with
       user_profile := snap
       conversation_history := history
       conversation_summary := s.conversation_summary
       profile_updates := {} }, db1, ev1)

/-- Model of `update_user_profile_node` (lines 605-621): persist the patch when it
is truthy, then write the two conversation rows — three independent
`db.commit()` calls in `app/database.py`, one per operation. -/
def update_user_profile_node (db : DB) (now : Nat) (s : StudentState) :
    DB × List DbCommit :=
  let (db1, ev1) :=
    if !s.profile_updates.isEmpty then
      update_user_profile db s.wallet_address s.profile_updates now
    else (db, [])
  let (db2, ev2) := save_conversation db1 now s.wallet_address "user" s.last_message
  let (db3, ev3) := save_conversation db2 now s.wallet_address "assistant" s.response
  (db3, ev1 ++ ev2 ++ ev3)

/-- The `operator.add` reducer of the `conversation_history` channel:
a node's returned history is appended to the channel's previous value. -/
def addHist (prev ret : StudentState) : StudentState :=
  { ret with conversation_history := prev.conversation_history ++ ret.conversation_history }

/-- One run of the compiled graph (lines 73-120):
`load_context → summarize_if_needed → determine_mode → handler →
update_profile`.  Returns the turn outcome, the database after the run,
and the ordered commit trace.  A raising node aborts the turn; commits
already made (profile creation during context loading) remain. -/
def runTurn (llm : LLM) (db : DB) (now : Nat) (inp : StudentState) :
    Except Unit StudentState × DB × List DbCommit :=
  let (ret1, db1, ev1) := load_context db inp
  let s1 := addHist inp ret1
  match summarize_conversation_if_needed llm s1 with
  | Except.error e => (Except.error e, db1, ev1)
  | Except.ok ret2 =>
    let s2 := addHist s1 ret2
    let s3 := addHist s2 (determine_mode s2)
    match dispatchMode llm s3 with
    | Except.error e => (Except.error e, db1, ev1)
    | Except.ok ret4 =>
      let s4 := addHist s3 ret4
      let (db2, ev2) := update_user_profile_node db1 now s4
      (Except.ok (addHist s4 s4), db2, ev1 ++ ev2)

/-! ### Shared structural lemmas about the pipeline -/

/-- With at most fifteen turns of history the summarizer node returns its
input state unchanged. -/
theorem summarize_noop (llm : LLM) (s : StudentState)
    (h : s.conversation_history.length ≤ 15) :
    summarize_conversation_if_needed llm s = Except.ok s := by
  unfold summarize_conversation_if_needed
  rw [if_neg (by omega)]

/-- With more than fifteen turns the evicted segment is non-empty. -/
theorem toSummarize_not_empty (s : StudentState)
    (h : 15 < s.conversation_history.length) :
    (s.conversation_history.take (s.conversation_history.length - 5)).isEmpty = false := by
  have hlen : (s.conversation_history.take (s.conversation_history.length - 5)).length
      = s.conversation_history.length - 5 := by
    rw [List.length_take]
    omega
  cases hc : s.conversation_history.take (s.conversation_history.length - 5) with
  | nil => rw [hc] at hlen; simp at hlen; omega
  | cons a t => rfl

/-- With more than fifteen turns and a successful model call, the node
keeps the newest five turns and installs the model text as the summary. -/
theorem summarize_trim (llm : LLM) (s : StudentState) (t : String)
    (h : 15 < s.conversation_history.length)
    (hok : llm [⟨"user", summaryPrompt s.conversation_summary
        (s.conversation_history.take (s.conversation_history.length - 5))⟩]
      = Except.ok t) :
    summarize_conversation_if_needed llm s
      = Except.ok
          { s with
            conversation_history := lastN 5 s.conversation_history
            conversation_summary := t } := by
  unfold summarize_conversation_if_needed
  rw [if_pos (by omega), if_neg (by rw [toSummarize_not_empty s h]; simp), hok]

/-- With more than fifteen turns and a failing model call, the node
raises: the exception is not caught anywhere in the function. -/
theorem summarize_raises (llm : LLM) (s : StudentState)
    (h : 15 < s.conversation_history.length)
    (hfail : llm [⟨"user", summaryPrompt s.conversation_summary
        (s.conversation_history.take (s.conversation_history.length - 5))⟩]
      = Except.error ()) :
    summarize_conversation_if_needed llm s = Except.error () := by
  unfold summarize_conversation_if_needed
  rw [if_pos (by omega), if_neg (by rw [toSummarize_not_empty s h]; simp), hfail]

/-- Python `history[-5:]` has exactly five entries when more than five exist. -/
theorem lastN_five_length (l : List Msg) (h : 15 < l.length) :
    (lastN 5 l).length = 5 := by
  unfold lastN
  rw [List.length_reverse, List.length_take, List.length_reverse]
  omega

/-- Fetching history returns at most `limit` turns. -/
theorem get_history_length_le (db : DB) (w : String) (limit : Nat) :
    (get_conversation_history db w limit).length ≤ limit := by
  unfold get_conversation_history
  rw [List.length_map, List.length_reverse, List.length_take]
  omega

/-- The profile row `load_context` works with: the stored row, or the row
freshly created when none existed. -/
def loadProfileRow (db : DB) (w : String) : DBProfile :=
  match findProfile db w with
  | some p => p
  | none => newProfile w

/-- The database after `load_context` (a missing profile has been
created). -/
def loadDB (db : DB) (w : String) : DB :=
  match findProfile db w with
  | some _ => db
  | none => { db with profiles := db.profiles ++ [newProfile w] }

/-- The commits issued by `load_context`. -/
def loadEv (db : DB) (w : String) : List DbCommit :=
  match findProfile db w with
  | some _ => []
  | none => [DbCommit.createProfile w]

theorem find?_append_none {α : Type} (p : α → Bool) :
    ∀ (l₁ l₂ : List α), l₁.find? p = none → (l₁ ++ l₂).find? p = l₂.find? p
  | [], _, _ => rfl
  | a :: t, l₂, h => by
    by_cases ha : p a
    · rw [List.find?_cons_of_pos _ ha] at h
      exact absurd h (by simp)
    · rw [List.cons_append, List.find?_cons_of_neg _ ha]
      rw [List.find?_cons_of_neg _ ha] at h
      exact find?_append_none p t l₂ h

/-- The re-fetch after profile creation finds exactly the fresh row. -/
theorem findProfile_after_create (db : DB) (w : String)
    (h : findProfile db w = none) :
    findProfile { db with profiles := db.profiles ++ [newProfile w] } w
      = some (newProfile w) := by
  unfold findProfile at h ⊢
  rw [find?_append_none _ _ _ h]
  simp [newProfile]

/-- Characterization of `load_context` via `loadProfileRow`. -/
theorem load_context_eq (db : DB) (s : StudentState) :
    load_context db s =
      ({ s with
         user_profile := toSnapshot (loadProfileRow db s.wallet_address)
         conversation_history := get_conversation_history db s.wallet_address 10
         profile_updates := {} },
       loadDB db s.wallet_address, loadEv db s.wallet_address) := by
  unfold load_context loadProfileRow loadDB loadEv get_user_profile
  cases h : findProfile db s.wallet_address with
  | some p => simp [h]
  | none =>
    simp only [h, Option.map_none, create_user_profile]
    rw [findProfile_after_create db s.wallet_address h]
    rfl

theorem find?_map_replace {w : String} {q : DBProfile}
    (hq : q.wallet_address = w) :
    ∀ (l : List DBProfile),
      (l.find? (fun p => p.wallet_address == w)).isSome →
      ((l.map (fun p => if p.wallet_address == w then q else p)).find?
        (fun p => p.wallet_address == w)) = some q
  | [], h => by simp at h
  | a :: t, h => by
    simp only [List.map_cons]
    by_cases ha : (a.wallet_address == w) = true
    · rw [if_pos ha]
      have hq' : ((fun p => p.wallet_address == w) q) = true := by simp [hq]
      rw [@List.find?_cons_of_pos _ (fun p => p.wallet_address == w) q _ hq']
    · rw [if_neg ha]
      rw [@List.find?_cons_of_neg _ (fun p => p.wallet_address == w) a _ ha]
      apply find?_map_replace hq t
      rw [@List.find?_cons_of_neg _ (fun p => p.wallet_address == w) a _ ha] at h
      exact h

/-- Replacing the row keyed `w` makes the replacement the row fetched for
`w` (given the key existed and the replacement keeps the key). -/
theorem findProfile_setProfile (db : DB) (w : String) (q : DBProfile)
    (hq : q.wallet_address = w) (p : DBProfile)
    (h : findProfile db w = some p) :
    findProfile (setProfile db w q) w = some q := by
  unfold findProfile at h
  unfold findProfile setProfile
  exact find?_map_replace hq db.profiles (by rw [h]; rfl)

/-- A fetched row satisfies the fetch predicate. -/
theorem findProfile_wallet (db : DB) (w : String) (p : DBProfile)
    (h : findProfile db w = some p) : p.wallet_address = w := by
  have := List.find?_some h
  simpa using this

/-- Effect of `save_conversation` on the rows the core later reads. -/
theorem save_conversation_db (db : DB) (now : Nat) (w role content : String) :
    (save_conversation db now w role content).1.conversations
        = db.conversations ++ [⟨w, role, content⟩] ∧
    findProfile (save_conversation db now w role content).1 w
        = (findProfile db w).map
            (fun p =>
              { p with
                total_conversations := p.total_conversations + 1
                last_active := now }) ∧
    (save_conversation db now w role content).2 = [DbCommit.conversation w role content] := by
  have hfp : findProfile { db with conversations := db.conversations ++ [⟨w, role, content⟩] } w
      = findProfile db w := rfl
  refine ⟨?_, ?_, ?_⟩ <;> unfold save_conversation <;> simp only [hfp]
  · cases h : findProfile db w
    · rfl
    · rfl
  · cases h : findProfile db w with
    | none => exact hfp.trans h
    | some p =>
      exact findProfile_setProfile _ w _ (findProfile_wallet db w p h) p (hfp.trans h)

/-- Behaviour of `update_user_profile` when the row exists: one merge, one commit. -/
theorem update_user_profile_found (db : DB) (w : String) (u : Updates)
    (now : Nat) (p : DBProfile) (h : findProfile db w = some p) :
    update_user_profile db w u now
      = (setProfile db w (applyUpdates p u now), [DbCommit.profilePatch w]) := by
  unfold update_user_profile
  rw [h]
  rfl

/-- Fetching after `load_context` finds the loaded row. -/
theorem findProfile_loadDB (db : DB) (w : String) :
    findProfile (loadDB db w) w = some (loadProfileRow db w) := by
  unfold loadDB loadProfileRow
  cases h : findProfile db w with
  | some p => exact h
  | none => exact findProfile_after_create db w h

/-! ### Claim C1 — tolerant JSON parser -/

/-- C1 counterexample: on the input `["{", "}"]` the brace span is the
unparsable text between the braces, and `_safe_extract_json` returns
`none`; the algorithm the claim describes would fall back to parsing the
trimmed text, which is valid JSON, and succeed.  So the function does
not "attempt to parse the trimmed text directly" when the span parse
fails. -/
theorem c1_counterexample :
    safeExtractJson jsonLoadsE exSpanFails = none ∧
    extractStructuredSpec jsonLoadsE exSpanFails
      = some (JVal.jarr [JVal.jstr "\x7b", JVal.jstr "\x7d"]) :=
  ⟨rfl, rfl⟩

/-- C1 (amended): `_safe_extract_json` locates the span from the first
opening brace to the last closing brace; if a span is found its parse
result is returned, with `none` on parse failure and no second attempt;
only when no span exists is the trimmed text parsed directly; it never
raises.  The two spec examples behave as claimed:
`extract_structured` on an object followed by trailing text yields the
object, and on text with no JSON yields `none`. -/
theorem c1_amended :
    (∀ (loads : String → Except Unit JVal) (text sp : String),
      braceSpan text = some sp →
        safeExtractJson loads text =
          (match loads sp with
           | Except.ok v => some v
           | Except.error _ => none)) ∧
    (∀ (loads : String → Except Unit JVal) (text : String),
      braceSpan text = none →
        safeExtractJson loads text =
          (match loads (pyStrip text) with
           | Except.ok v => some v
           | Except.error _ => none)) ∧
    safeExtractJson jsonLoadsE exJsonTrailing
      = some (JVal.jobj [("a", JVal.jnum 1)]) ∧
    safeExtractJson jsonLoadsE exNoJson = none := by
  refine ⟨?_, ?_, rfl, rfl⟩
  · intro loads text sp h
    unfold safeExtractJson
    rw [h]
  · intro loads text h
    unfold safeExtractJson
    rw [h]

/-- C1 witness: the two quantified clauses of the amended claim applied
at concrete inputs. -/
theorem c1_witness :
    (safeExtractJson jsonLoadsE exSpanFails =
      (match jsonLoadsE "\x7b\x22, \x22\x7d" with
       | Except.ok v => some v
       | Except.error _ => none)) ∧
    (safeExtractJson jsonLoadsE exNoJson =
      (match jsonLoadsE (pyStrip exNoJson) with
       | Except.ok v => some v
       | Except.error _ => none)) :=
  ⟨c1_amended.1 jsonLoadsE exSpanFails "\x7b\x22, \x22\x7d" rfl,
   c1_amended.2.1 jsonLoadsE exNoJson rfl⟩

/-! ### Claim C2 — merge idempotence -/

/-- Concrete stored profile used to witness C2. -/
def c2profile : DBProfile :=
  { wallet_address := "0xabc"
    career_context := [("current_status", JVal.jstr "student")]
    learning_challenges := ["Loops"] }

/-- Concrete patch used to witness C2. -/
def c2patch : Updates :=
  { career_context := some
      [("target_role", JVal.jarr [JVal.jstr "dev"]), ("career_timeline", JVal.jnum 6)]
    skill_profile := some [("python", JVal.jstr "intermediate")]
    learning_preferences := some []
    learning_challenges := some ["Recursion", "Loops"] }

/-- C2: re-applying the same patch through `update_user_profile` changes
nothing on the three mapping fields and the set-like challenges field
(the unconditional `last_active` stamp is excluded).  The key lists of
the patch dicts are duplicate-free, as they are for any patch obtained
from a Python dict. -/
theorem c2_merge_idempotent (p : DBProfile) (u : Updates) (t1 t2 : Nat)
    (hc : ∀ d, u.career_context = some d → (d.map Prod.fst).Nodup)
    (hs : ∀ d, u.skill_profile = some d → (d.map Prod.fst).Nodup)
    (hp : ∀ d, u.learning_preferences = some d → (d.map Prod.fst).Nodup) :
    (applyUpdates (applyUpdates p u t1) u t2).career_context
        = (applyUpdates p u t1).career_context ∧
    (applyUpdates (applyUpdates p u t1) u t2).skill_profile
        = (applyUpdates p u t1).skill_profile ∧
    (applyUpdates (applyUpdates p u t1) u t2).learning_preferences
        = (applyUpdates p u t1).learning_preferences ∧
    (applyUpdates (applyUpdates p u t1) u t2).learning_challenges
        = (applyUpdates p u t1).learning_challenges := by
  refine ⟨?_, ?_, ?_, ?_⟩ <;> unfold applyUpdates <;> simp only
  · cases h : u.career_context with
    | none => rfl
    | some d => exact dictUpdate_idem d (hc d h) _
  · cases h : u.skill_profile with
    | none => rfl
    | some d => exact dictUpdate_idem d (hs d h) _
  · cases h : u.learning_preferences with
    | none => rfl
    | some d => exact dictUpdate_idem d (hp d h) _
  · cases h : u.learning_challenges with
    | none => rfl
    | some n => exact mergeChallenges_idem _ n

/-- C2 witness: idempotence at a concrete profile and patch. -/
theorem c2_witness :
    (applyUpdates (applyUpdates c2profile c2patch 1) c2patch 2).career_context
        = (applyUpdates c2profile c2patch 1).career_context ∧
    (applyUpdates (applyUpdates c2profile c2patch 1) c2patch 2).skill_profile
        = (applyUpdates c2profile c2patch 1).skill_profile ∧
    (applyUpdates (applyUpdates c2profile c2patch 1) c2patch 2).learning_preferences
        = (applyUpdates c2profile c2patch 1).learning_preferences ∧
    (applyUpdates (applyUpdates c2profile c2patch 1) c2patch 2).learning_challenges
        = (applyUpdates c2profile c2patch 1).learning_challenges :=
  c2_merge_idempotent c2profile c2patch 1 2
    (fun d h => by cases h; decide)
    (fun d h => by cases h; decide)
    (fun d h => by cases h; decide)

/-! ### Claim C3 — onboarding payload forces onboarding mode -/

/-- A turn state carrying a present-but-empty onboarding payload. -/
def c3cex : StudentState :=
  { wallet_address := "0xabc"
    onboarding_data := some []
    completed_courses := some [[("title", JVal.jstr "Intro to Web3")]]
    current_course_id := some 1
    last_message := "hello" }

/-- C3 counterexample: `determine_mode` tests the payload with Python
truthiness (`state.get("onboarding_data")`), so a present-but-empty
payload dict does not resolve to onboarding — this state resolves to
learning mode instead. -/
theorem c3_counterexample :
    c3cex.onboarding_data.isSome = true ∧
    (determine_mode c3cex).mode = "learning" ∧
    (determine_mode c3cex).mode ≠ "onboarding" :=
  ⟨rfl, rfl, by decide⟩

/-- C3 (amended): whenever the turn carries a non-empty onboarding
payload, the classifier resolves to onboarding regardless of completed
courses, stored career context, current course, or message content. -/
theorem c3_nonempty_payload_onboarding (s : StudentState) (d : PyDict JVal)
    (hd : s.onboarding_data = some d) (hne : d ≠ []) :
    (determine_mode s).mode = "onboarding" := by
  unfold determine_mode
  have ht : truthyOnb s.onboarding_data = true := by
    rw [hd]
    unfold truthyOnb
    cases d with
    | nil => exact absurd rfl hne
    | cons a t => rfl
  simp only [ht, if_pos]

/-- C3 witness: a non-empty payload resolves to onboarding even with a
current course active and career data stored. -/
theorem c3_witness :
    (determine_mode
      { wallet_address := "0xabc"
        onboarding_data := some [("currentRole", JVal.jstr "dev")]
        completed_courses := some [[("title", JVal.jstr "Intro to Web3")]]
        current_course_id := some 1
        last_message := "what next" }).mode = "onboarding" :=
  c3_nonempty_payload_onboarding _ _ rfl (by simp)

/-! ### Claim C4 — history summarizer trim/no-op -/

/-- A sixteen-turn history (above the threshold). -/
def c4state : StudentState :=
  { wallet_address := "0xabc"
    conversation_history := List.replicate 16 ⟨"user", "m"⟩
    conversation_summary := "old summary" }

/-- A model that answers with empty text. -/
def llmEmptyText : LLM := fun _ => Except.ok ""

/-- A model that answers with the text `digest`. -/
def llmDigest : LLM := fun _ => Except.ok "digest"

/-- C4 counterexample: the summary produced for a 16-turn history is
exactly the model text, so when the model returns empty text the
returned summary is empty — "the returned summary is non-empty" does not
hold unconditionally. -/
theorem c4_counterexample :
    15 < c4state.conversation_history.length ∧
    (∃ s', summarize_conversation_if_needed llmEmptyText c4state = Except.ok s' ∧
      s'.conversation_summary = "") :=
  ⟨by decide, ⟨_, summarize_trim llmEmptyText c4state "" (by decide) rfl, rfl⟩⟩

/-- C4 (amended): histories of length at most fifteen pass through
unchanged; for longer histories the trimmed history is exactly the most
recent five turns and the returned summary equals the model-generated
digest — in particular it is non-empty whenever the model text is. -/
theorem c4_amended :
    (∀ (llm : LLM) (s : StudentState), s.conversation_history.length ≤ 15 →
      summarize_conversation_if_needed llm s = Except.ok s) ∧
    (∀ (llm : LLM) (s : StudentState) (t : String),
      15 < s.conversation_history.length →
      llm [⟨"user", summaryPrompt s.conversation_summary
          (s.conversation_history.take (s.conversation_history.length - 5))⟩]
        = Except.ok t →
      summarize_conversation_if_needed llm s
        = Except.ok
            { s with
              conversation_history := lastN 5 s.conversation_history
              conversation_summary := t } ∧
      (lastN 5 s.conversation_history).length = 5) :=
  ⟨summarize_noop,
   fun llm s t h hok => ⟨summarize_trim llm s t h hok, lastN_five_length _ h⟩⟩

/-- C4 witness: both branches exercised at concrete states. -/
theorem c4_witness :
    summarize_conversation_if_needed llmDigest { wallet_address := "0xw" }
      = Except.ok { wallet_address := "0xw" } ∧
    (summarize_conversation_if_needed llmDigest c4state
      = Except.ok
          { c4state with
            conversation_history := lastN 5 c4state.conversation_history
            conversation_summary := "digest" } ∧
     (lastN 5 c4state.conversation_history).length = 5) :=
  ⟨c4_amended.1 llmDigest _ (by decide),
   c4_amended.2 llmDigest c4state "digest" (by decide) rfl⟩

/-! ### Claim C5 — summarizer model failure -/

/-- A sixteen-turn history used for the failure scenario. -/
def c5state : StudentState :=
  { wallet_address := "0xabc"
    conversation_history := List.replicate 16 ⟨"user", "question"⟩ }

/-- A model whose every call raises. -/
def llmFail : LLM := fun _ => Except.error ()

/-- C5 counterexample: with a failing model and an over-threshold
history, `summarize_conversation_if_needed` raises — it does not return
any state, untrimmed or otherwise.  There is no exception handler in the
function, so the claimed graceful degradation does not exist. -/
theorem c5_counterexample :
    15 < c5state.conversation_history.length ∧
    summarize_conversation_if_needed llmFail c5state = Except.error () ∧
    ∀ s', summarize_conversation_if_needed llmFail c5state ≠ Except.ok s' := by
  have e : summarize_conversation_if_needed llmFail c5state = Except.error () :=
    summarize_raises llmFail c5state (by decide) rfl
  refine ⟨by decide, e, fun s' h => ?_⟩
  rw [e] at h
  exact Except.noConfusion h

/-- C5 (amended): a model failure during summarization propagates out of
the node (the state is modified only on model success), and a failing
summarization aborts the whole turn. -/
theorem c5_amended :
    (∀ (llm : LLM) (s : StudentState),
      15 < s.conversation_history.length →
      llm [⟨"user", summaryPrompt s.conversation_summary
          (s.conversation_history.take (s.conversation_history.length - 5))⟩]
        = Except.error () →
      summarize_conversation_if_needed llm s = Except.error ()) ∧
    (∀ (llm : LLM) (db : DB) (now : Nat) (inp : StudentState),
      summarize_conversation_if_needed llm (addHist inp (load_context db inp).1)
        = Except.error () →
      (runTurn llm db now inp).1 = Except.error ()) := by
  constructor
  · exact summarize_raises
  · intro llm db now inp h
    unfold runTurn
    rw [load_context_eq] at h ⊢
    simp only at h ⊢
    rw [h]

/-- C5 witness: the amended behaviour at a concrete failing model. -/
theorem c5_witness :
    summarize_conversation_if_needed llmFail c5state = Except.error () ∧
    (runTurn llmFail { } 0 c5state).1 = Except.error () :=
  ⟨c5_amended.1 llmFail c5state (by decide) rfl,
   c5_amended.2 llmFail { } 0 c5state rfl⟩

/-! ### Claim C6 — scalar identity fields -/

/-- Stored profile with a non-empty email and display name. -/
def c6profile : DBProfile :=
  { wallet_address := "0xabc"
    email := some "a@b.c"
    display_name := some "Alice" }

/-- A patch that carries a null email and an empty display name. -/
def c6patch : Updates :=
  { email := some none
    display_name := some (some "") }

/-- C6 counterexample: `update_user_profile` overwrites `email` and
`display_name` whenever the key is present in the patch — a null email
erases the stored address and an empty display name replaces the stored
one, contradicting the claimed non-empty guard. -/
theorem c6_counterexample :
    c6profile.email = some "a@b.c" ∧
    c6profile.display_name = some "Alice" ∧
    (applyUpdates c6profile c6patch 7).email = none ∧
    (applyUpdates c6profile c6patch 7).display_name = some "" :=
  ⟨rfl, rfl, rfl, rfl⟩

/-- C6 (amended): the merge engine overwrites `email` and `display_name`
exactly when the patch carries the key, whatever the value (empty and
null included); keys absent from the patch leave the stored values
unchanged. -/
theorem c6_amended (p : DBProfile) (u : Updates) (now : Nat) :
    (applyUpdates p u now).email = u.email.getD p.email ∧
    (applyUpdates p u now).display_name = u.display_name.getD p.display_name := by
  constructor <;> unfold applyUpdates <;> simp only
  · cases u.email <;> rfl
  · cases u.display_name <;> rfl

/-! ### Claim C9 — the summarizer branch is unreachable in the pipeline -/

/-- C9: with the empty initial history every caller supplies, the history
entering the summarizer node is the fetched one, of length at most ten
(`load_context` fetches with `limit=10`), so the over-fifteen branch is
unreachable and the summarizer returns its input unchanged. -/
theorem c9_pipeline_history_bound (llm : LLM) (db : DB) (inp : StudentState)
    (hinit : inp.conversation_history = []) :
    (addHist inp (load_context db inp).1).conversation_history.length ≤ 10 ∧
    summarize_conversation_if_needed llm (addHist inp (load_context db inp).1)
      = Except.ok (addHist inp (load_context db inp).1) := by
  have hlen :
      (addHist inp (load_context db inp).1).conversation_history.length ≤ 10 := by
    rw [load_context_eq]
    simp only [addHist, hinit, List.nil_append]
    exact get_history_length_le db inp.wallet_address 10
  exact ⟨hlen, summarize_noop llm _ (le_trans hlen (by omega))⟩

/-- Twelve stored turns: more than the fetch limit, fewer are loaded. -/
def c9db : DB :=
  { conversations := List.replicate 12 ⟨"0xw", "user", "m"⟩ }

def c9inp : StudentState := { wallet_address := "0xw" }

/-- C9 witness (a model that would raise if it were ever called). -/
theorem c9_witness :
    (addHist c9inp (load_context c9db c9inp).1).conversation_history.length ≤ 10 ∧
    summarize_conversation_if_needed llmFail
        (addHist c9inp (load_context c9db c9inp).1)
      = Except.ok (addHist c9inp (load_context c9db c9inp).1) :=
  c9_pipeline_history_bound llmFail c9db c9inp rfl

/-! ### Claim C10 — the learning patch aliases the snapshot -/

/-- C10: when a difficulty keyword matches, the challenges list placed in
the patch is the snapshot's list (CPython aliasing), so the returned
state's `user_profile` also contains the appended chapter title, not only
`profile_updates`. -/
theorem c10_patch_aliases_snapshot (llm : LLM) (s s' : StudentState)
    (hkw : anyKw difficultyKws (toLowerStr s.last_message) = true)
    (hok : learning_assistance llm s = Except.ok s') :
    s'.profile_updates.learning_challenges
        = some s'.user_profile.learning_challenges ∧
    pyOrStr s.current_chapter_title "Current chapter"
        ∈ s'.user_profile.learning_challenges ∧
    (pyOrStr s.current_chapter_title "Current chapter"
        ∉ s.user_profile.learning_challenges →
      s'.user_profile.learning_challenges
        = s.user_profile.learning_challenges
            ++ [pyOrStr s.current_chapter_title "Current chapter"]) := by
  unfold learning_assistance at hok
  simp only [hkw, eq_self_iff_true, if_true] at hok
  split at hok
  · exact Except.noConfusion hok
  · injection hok with hs'
    subst hs'
    refine ⟨rfl, ?_, ?_⟩
    · by_cases hc : s.user_profile.learning_challenges.contains
          (pyOrStr s.current_chapter_title "Current chapter")
      · simp only [hc, if_true]
        simpa using hc
      · simp only [hc, if_false]
        simp
    · intro hnot
      have hc : s.user_profile.learning_challenges.contains
          (pyOrStr s.current_chapter_title "Current chapter") = false := by
        cases hcc : s.user_profile.learning_challenges.contains
            (pyOrStr s.current_chapter_title "Current chapter")
        · rfl
        · exact absurd (by simpa using hcc) hnot
      simp [hc]
      exact hnot

def llmConst : LLM := fun _ => Except.ok "reply"

/-- Turn state for the C10 witness: in-course user reporting difficulty,
with one prior challenge stored in the snapshot. -/
def c10state : StudentState :=
  { wallet_address := "0xw"
    last_message := "I am stuck"
    current_chapter_title := some "Smart Contracts"
    user_profile := { learning_challenges := ["Loops"] } }

/-- The state the learning handler returns for `c10state`. -/
def c10result : StudentState :=
  { c10state with
    response := "reply"
    user_profile :=
      { c10state.user_profile with
        learning_challenges := ["Loops", "Smart Contracts"] }
    profile_updates := { learning_challenges := some ["Loops", "Smart Contracts"] } }

/-- C10 witness: the aliasing behaviour at a concrete state. -/
theorem c10_witness :
    c10result.profile_updates.learning_challenges
        = some c10result.user_profile.learning_challenges ∧
    pyOrStr c10state.current_chapter_title "Current chapter"
        ∈ c10result.user_profile.learning_challenges ∧
    (pyOrStr c10state.current_chapter_title "Current chapter"
        ∉ c10state.user_profile.learning_challenges →
      c10result.user_profile.learning_challenges
        = c10state.user_profile.learning_challenges
            ++ [pyOrStr c10state.current_chapter_title "Current chapter"]) :=
  c10_patch_aliases_snapshot llmConst c10state c10result rfl rfl

/-! ### Claim C7 — persistence atomicity -/

/-- Commits that belong to the per-turn persistence step (profile patch
and conversation records); profile creation during context loading is a
separate concern. -/
def isPersistCommit : DbCommit → Bool
  | DbCommit.createProfile _ => false
  | DbCommit.profilePatch _ => true
  | DbCommit.conversation _ _ _ => true

/-- The persistence node issues its writes as separate commits: one for
the profile patch (when the patch is truthy) and one for each of the two
conversation records. -/
theorem node_persist_commits (db : DB) (now : Nat) (s : StudentState) :
    (update_user_profile_node db now s).2.filter isPersistCommit =
      (if s.profile_updates.isEmpty = true then
        [DbCommit.conversation s.wallet_address "user" s.last_message,
         DbCommit.conversation s.wallet_address "assistant" s.response]
       else
        [DbCommit.profilePatch s.wallet_address,
         DbCommit.conversation s.wallet_address "user" s.last_message,
         DbCommit.conversation s.wallet_address "assistant" s.response]) := by
  unfold update_user_profile_node update_user_profile
  cases he : s.profile_updates.isEmpty with
  | true => simp [he, save_conversation, isPersistCommit]
  | false =>
    cases hf : findProfile db s.wallet_address with
    | some p => simp [he, hf, save_conversation, isPersistCommit]
    | none => simp [he, hf, create_user_profile, save_conversation, isPersistCommit]

/-- The channel state entering the summarizer node. -/
def afterLoad (db : DB) (inp : StudentState) : StudentState :=
  addHist inp
    { inp with
      user_profile := toSnapshot (loadProfileRow db inp.wallet_address)
      conversation_history := get_conversation_history db inp.wallet_address 10
      profile_updates := {} }

/-- The channel state entering `determine_mode`. -/
def postSummarize (db : DB) (inp ret2 : StudentState) : StudentState :=
  addHist (afterLoad db inp) ret2

/-- The channel state entering the selected handler. -/
def preHandler (db : DB) (inp ret2 : StudentState) : StudentState :=
  addHist (postSummarize db inp ret2) (determine_mode (postSummarize db inp ret2))

/-- The channel state entering the persistence node. -/
def postHandler (db : DB) (inp ret2 ret4 : StudentState) : StudentState :=
  addHist (preHandler db inp ret2) ret4

/-- Unfolding of `runTurn` in terms of the named per-stage states. -/
theorem runTurn_eq (llm : LLM) (db : DB) (now : Nat) (inp : StudentState) :
    runTurn llm db now inp =
      (match summarize_conversation_if_needed llm (afterLoad db inp) with
       | Except.error e =>
         (Except.error e, loadDB db inp.wallet_address, loadEv db inp.wallet_address)
       | Except.ok ret2 =>
         match dispatchMode llm (preHandler db inp ret2) with
         | Except.error e =>
           (Except.error e, loadDB db inp.wallet_address, loadEv db inp.wallet_address)
         | Except.ok ret4 =>
           (Except.ok (addHist (postHandler db inp ret2 ret4) (postHandler db inp ret2 ret4)),
            (update_user_profile_node (loadDB db inp.wallet_address) now
              (postHandler db inp ret2 ret4)).1,
            loadEv db inp.wallet_address
              ++ (update_user_profile_node (loadDB db inp.wallet_address) now
                   (postHandler db inp ret2 ret4)).2)) := by
  unfold runTurn
  rw [load_context_eq]
  rfl

/-- A turn either aborts, leaving only the context-loading commits, or
completes through the persistence node. -/
theorem runTurn_cases (llm : LLM) (db : DB) (now : Nat) (inp : StudentState) :
    (runTurn llm db now inp
       = (Except.error (), loadDB db inp.wallet_address, loadEv db inp.wallet_address)) ∨
    (∃ s4, runTurn llm db now inp
       = (Except.ok (addHist s4 s4),
          (update_user_profile_node (loadDB db inp.wallet_address) now s4).1,
          loadEv db inp.wallet_address
            ++ (update_user_profile_node (loadDB db inp.wallet_address) now s4).2)) := by
  rw [runTurn_eq]
  cases summarize_conversation_if_needed llm (afterLoad db inp) with
  | error e => left; cases e; rfl
  | ok ret2 =>
    dsimp only
    cases dispatchMode llm (preHandler db inp ret2) with
    | error e => left; cases e; rfl
    | ok ret4 => right; exact ⟨postHandler db inp ret2 ret4, rfl⟩

theorem loadEv_persist (db : DB) (w : String) :
    (loadEv db w).filter isPersistCommit = [] := by
  unfold loadEv
  cases findProfile db w <;> rfl

theorem loadDB_conversations (db : DB) (w : String) :
    (loadDB db w).conversations = db.conversations := by
  unfold loadDB
  cases findProfile db w <;> rfl

theorem loadDB_profiles (db : DB) (w : String) :
    (loadDB db w).profiles = db.profiles ∨
    (loadDB db w).profiles = db.profiles ++ [newProfile w] := by
  unfold loadDB
  cases findProfile db w with
  | some p => left; rfl
  | none => right; rfl

/-- C7 (amended): when any stage of the turn raises before persistence,
no profile patch and no conversation record is committed (at most the
profile-creation commit of context loading happens, and the stored rows
are otherwise untouched); when the turn completes, the persistence step
is issued as two or three separate single-operation commits — the patch
commit and each conversation commit are independent transactions, not
one atomic unit. -/
theorem c7_amended :
    (∀ (llm : LLM) (db : DB) (now : Nat) (inp : StudentState),
      (runTurn llm db now inp).1 = Except.error () →
        (runTurn llm db now inp).2.2.filter isPersistCommit = [] ∧
        (runTurn llm db now inp).2.1.conversations = db.conversations ∧
        ((runTurn llm db now inp).2.1.profiles = db.profiles ∨
         (runTurn llm db now inp).2.1.profiles
           = db.profiles ++ [newProfile inp.wallet_address])) ∧
    (∀ (llm : LLM) (db : DB) (now : Nat) (inp s4 : StudentState),
      (runTurn llm db now inp).1 = Except.ok s4 →
        (runTurn llm db now inp).2.2.filter isPersistCommit =
          (if s4.profile_updates.isEmpty = true then
            [DbCommit.conversation s4.wallet_address "user" s4.last_message,
             DbCommit.conversation s4.wallet_address "assistant" s4.response]
           else
            [DbCommit.profilePatch s4.wallet_address,
             DbCommit.conversation s4.wallet_address "user" s4.last_message,
             DbCommit.conversation s4.wallet_address "assistant" s4.response])) := by
  constructor
  · intro llm db now inp h
    rcases runTurn_cases llm db now inp with he | ⟨s4', hok⟩
    · rw [he]
      exact ⟨loadEv_persist db inp.wallet_address,
        loadDB_conversations db inp.wallet_address,
        loadDB_profiles db inp.wallet_address⟩
    · rw [hok] at h
      exact Except.noConfusion h
  · intro llm db now inp s4 h
    rcases runTurn_cases llm db now inp with he | ⟨s4', hok⟩
    · rw [he] at h
      exact Except.noConfusion h
    · rw [hok] at h ⊢
      injection h with h4
      subst h4
      simp only [List.filter_append, loadEv_persist, List.nil_append]
      exact node_persist_commits (loadDB db inp.wallet_address) now s4'

/-- Stored profile for the C7 persistence scenario. -/
def c7db : DB :=
  { profiles := [{ wallet_address := "0xw"
                   career_context := [("current_status", JVal.jstr "student")] }] }

/-- An in-course turn that emits a profile patch. -/
def c7inp : StudentState :=
  { wallet_address := "0xw"
    last_message := "I am stuck on this"
    current_course_id := some 1
    current_chapter_title := some "Ch1"
    completed_courses := some [[("title", JVal.jstr "Intro")]] }

/-- C7 counterexample: a completed turn with a non-empty patch issues
three separate persistence commits (the patch, then each conversation
record), not one atomic unit. -/
theorem c7_counterexample :
    ((runTurn llmConst c7db 3 c7inp).2.2.filter isPersistCommit)
      = [DbCommit.profilePatch "0xw",
         DbCommit.conversation "0xw" "user" "I am stuck on this",
         DbCommit.conversation "0xw" "assistant" "reply"] ∧
    ((runTurn llmConst c7db 3 c7inp).2.2.filter isPersistCommit).length = 3 ∧
    ((runTurn llmConst c7db 3 c7inp).2.2.filter isPersistCommit).length ≠ 1 :=
  ⟨rfl, rfl, by decide⟩

/-- An input whose turn fails at the handler (the model raises). -/
def c7ainp : StudentState :=
  { wallet_address := "0xw"
    last_message := "hello" }

/-- The state produced by the successful C7 turn. -/
def c7s4 : StudentState :=
  match (runTurn llmConst c7db 3 c7inp).1 with
  | Except.ok v => v
  | Except.error _ => { wallet_address := "" }

/-- C7 witness: both arms of the amended claim at concrete turns — a
failing handler persists nothing, and a completed turn issues its three
writes as separate commits. -/
theorem c7_witness :
    ((runTurn llmFail { } 0 c7ainp).2.2.filter isPersistCommit = [] ∧
     (runTurn llmFail { } 0 c7ainp).2.1.conversations = DB.conversations { } ∧
     ((runTurn llmFail { } 0 c7ainp).2.1.profiles = DB.profiles { } ∨
      (runTurn llmFail { } 0 c7ainp).2.1.profiles
        = DB.profiles { } ++ [newProfile c7ainp.wallet_address])) ∧
    ((runTurn llmConst c7db 3 c7inp).2.2.filter isPersistCommit =
      (if c7s4.profile_updates.isEmpty = true then
        [DbCommit.conversation c7s4.wallet_address "user" c7s4.last_message,
         DbCommit.conversation c7s4.wallet_address "assistant" c7s4.response]
       else
        [DbCommit.profilePatch c7s4.wallet_address,
         DbCommit.conversation c7s4.wallet_address "user" c7s4.last_message,
         DbCommit.conversation c7s4.wallet_address "assistant" c7s4.response])) :=
  ⟨c7_amended.1 llmFail { } 0 c7ainp rfl,
   c7_amended.2 llmConst c7db 3 c7inp c7s4 rfl⟩

/-! ### Claim C8 — difficulty keyword tracking -/

/-- A total model built from a response function. -/
def okLLM (g : List Msg → String) : LLM := fun ms => Except.ok (g ms)

/-- The classifier resolves to learning exactly when no onboarding
payload is truthy, the first-contact rule does not fire, a course is
active, and no progress/recommendation keyword matches. -/
theorem determine_mode_learning (s : StudentState)
    (honb : truthyOnb s.onboarding_data = false)
    (hfirst : (!truthyCourses s.completed_courses
        && s.user_profile.career_context.isEmpty) = false)
    (hcid : truthyCourseId s.current_course_id = true)
    (hnoprog : anyKw progressKws (toLowerStr s.last_message) = false)
    (hnorec : anyKw recommendKws (toLowerStr s.last_message) = false)
    (hnorec2 : anyKw recommendKws2 (toLowerStr s.last_message) = false) :
    determine_mode s = { s with mode := "learning" } := by
  unfold determine_mode
  simp only [honb, hfirst, hcid, hnoprog, hnorec, hnorec2,
    Bool.false_eq_true, if_false, if_true]

/-- Dispatch on a learning-mode state selects the learning handler. -/
theorem dispatch_learning (llm : LLM) (s : StudentState)
    (h : s.mode = "learning") :
    dispatchMode llm s = learning_assistance llm s := by
  unfold dispatchMode
  rw [h, if_neg (by decide), if_neg (by decide), if_pos rfl]

/-- The challenges list the learning handler produces on a keyword
match. -/
def newChallenges (s : StudentState) : List String :=
  if s.user_profile.learning_challenges.contains
      (pyOrStr s.current_chapter_title "Current chapter") then
    s.user_profile.learning_challenges
  else
    s.user_profile.learning_challenges
      ++ [pyOrStr s.current_chapter_title "Current chapter"]

theorem mem_newChallenges (s : StudentState) :
    pyOrStr s.current_chapter_title "Current chapter" ∈ newChallenges s := by
  unfold newChallenges
  by_cases hc : s.user_profile.learning_challenges.contains
      (pyOrStr s.current_chapter_title "Current chapter")
  · rw [if_pos hc]
    simpa using hc
  · rw [if_neg hc]
    simp

/-- The state the learning handler returns on a keyword match. -/
def learnOut (s : StudentState) (resp : String) : StudentState :=
  { s with
    response := resp
    user_profile :=
      { s.user_profile with learning_challenges := newChallenges s }
    profile_updates := { learning_challenges := some (newChallenges s) } }

/-- With a total model and a difficulty keyword in the message, the
learning handler succeeds and emits the updated challenges list into
both the snapshot and the patch. -/
theorem learning_assistance_ok (g : List Msg → String) (s : StudentState)
    (hkw : anyKw difficultyKws (toLowerStr s.last_message) = true) :
    ∃ resp,
      learning_assistance (okLLM g) s = Except.ok (learnOut s resp) := by
  refine ⟨g (⟨"system",
      "You are a learning assistant.\nCurrent Chapter: " ++
      (pyOrStr s.current_chapter_title "Unknown") ++ "\n" ++
      (pyOrStr s.current_chapter_summary "No summary available")⟩ ::
      s.conversation_history ++ [⟨"user", s.last_message⟩]), ?_⟩
  unfold learning_assistance okLLM learnOut newChallenges
  dsimp only
  simp only [hkw, eq_self_iff_true, if_true]

/-- Merging a list that contains the topic yields a stored list in which
the topic appears exactly once. -/
theorem count_merge_one (cur l : List String) (topic : String)
    (h : topic ∈ l) :
    (mergeChallenges cur l).count topic = 1 := by
  unfold mergeChallenges
  rw [List.count_dedup]
  simp [h]

/-- Once a non-empty patch flows into the persistence node against an
existing profile row, the stored row afterwards carries the merged
challenge set and the untouched career context. -/
theorem node_db_profile (db : DB) (now : Nat) (s : StudentState)
    (p : DBProfile)
    (hw : findProfile db s.wallet_address = some p)
    (hne : s.profile_updates.isEmpty = false) :
    ∃ q, findProfile (update_user_profile_node db now s).1 s.wallet_address
        = some q ∧
      q.learning_challenges
        = (applyUpdates p s.profile_updates now).learning_challenges ∧
      q.career_context
        = (applyUpdates p s.profile_updates now).career_context := by
  have hwq : (applyUpdates p s.profile_updates now).wallet_address
      = s.wallet_address := findProfile_wallet db s.wallet_address p hw
  have hw1 : findProfile
      (setProfile db s.wallet_address (applyUpdates p s.profile_updates now))
      s.wallet_address = some (applyUpdates p s.profile_updates now) :=
    findProfile_setProfile db s.wallet_address _ hwq p hw
  obtain ⟨hc1, hf1, he1⟩ := save_conversation_db
    (setProfile db s.wallet_address (applyUpdates p s.profile_updates now))
    now s.wallet_address "user" s.last_message
  rw [hw1] at hf1
  obtain ⟨hc2, hf2, he2⟩ := save_conversation_db
    ((save_conversation
      (setProfile db s.wallet_address (applyUpdates p s.profile_updates now))
      now s.wallet_address "user" s.last_message).1)
    now s.wallet_address "assistant" s.response
  rw [hf1] at hf2
  refine ⟨{ applyUpdates p s.profile_updates now with
            total_conversations :=
              (applyUpdates p s.profile_updates now).total_conversations + 1 + 1
            last_active := now }, ?_, rfl, rfl⟩
  unfold update_user_profile_node
  simp only [hne, Bool.not_false, if_true]
  rw [update_user_profile_found db s.wallet_address s.profile_updates now p hw]
  dsimp only
  exact hf2

/-- One full learning turn: under the amended-claim hypotheses the turn
completes in learning mode, the emitted patch contains the chapter title
(or default label), and the stored challenge list afterwards carries the
title exactly once. -/
theorem learning_turn (g : List Msg → String) (db : DB) (now : Nat)
    (inp : StudentState)
    (honb : inp.onboarding_data = none)
    (hhist : inp.conversation_history = [])
    (hcid : truthyCourseId inp.current_course_id = true)
    (hfirst : (!truthyCourses inp.completed_courses
        && (toSnapshot (loadProfileRow db inp.wallet_address)).career_context.isEmpty)
        = false)
    (hkw : anyKw difficultyKws (toLowerStr inp.last_message) = true)
    (hnoprog : anyKw progressKws (toLowerStr inp.last_message) = false)
    (hnorec : anyKw recommendKws (toLowerStr inp.last_message) = false)
    (hnorec2 : anyKw recommendKws2 (toLowerStr inp.last_message) = false) :
    ∃ s4 q,
      (runTurn (okLLM g) db now inp).1 = Except.ok s4 ∧
      s4.mode = "learning" ∧
      (∃ l, s4.profile_updates.learning_challenges = some l ∧
        pyOrStr inp.current_chapter_title "Current chapter" ∈ l) ∧
      findProfile (runTurn (okLLM g) db now inp).2.1 inp.wallet_address = some q ∧
      q.learning_challenges.count
        (pyOrStr inp.current_chapter_title "Current chapter") = 1 ∧
      q.career_context = (loadProfileRow db inp.wallet_address).career_context := by
  have hsum : summarize_conversation_if_needed (okLLM g) (afterLoad db inp)
      = Except.ok (afterLoad db inp) := by
    apply summarize_noop
    show (inp.conversation_history
        ++ get_conversation_history db inp.wallet_address 10).length ≤ 15
    rw [hhist, List.nil_append]
    exact le_trans (get_history_length_le db inp.wallet_address 10) (by omega)
  have hmode : determine_mode (postSummarize db inp (afterLoad db inp))
      = { postSummarize db inp (afterLoad db inp) with mode := "learning" } :=
    determine_mode_learning _
      (show truthyOnb inp.onboarding_data = false by rw [honb]; rfl)
      hfirst hcid hnoprog hnorec hnorec2
  have hpm : (preHandler db inp (afterLoad db inp)).mode = "learning" := by
    unfold preHandler
    rw [hmode]
    rfl
  have hdisp : dispatchMode (okLLM g) (preHandler db inp (afterLoad db inp))
      = learning_assistance (okLLM g) (preHandler db inp (afterLoad db inp)) :=
    dispatch_learning _ _ hpm
  obtain ⟨resp, hlearn⟩ :=
    learning_assistance_ok g (preHandler db inp (afterLoad db inp)) hkw
  set S4 := postHandler db inp (afterLoad db inp)
    (learnOut (preHandler db inp (afterLoad db inp)) resp) with hS4
  have hrun : runTurn (okLLM g) db now inp =
      (Except.ok (addHist S4 S4),
       (update_user_profile_node (loadDB db inp.wallet_address) now S4).1,
       loadEv db inp.wallet_address
         ++ (update_user_profile_node (loadDB db inp.wallet_address) now S4).2) := by
    rw [runTurn_eq, hsum]
    dsimp only
    rw [hdisp, hlearn]
  obtain ⟨q, hq, hqlc, hqcc⟩ := node_db_profile (loadDB db inp.wallet_address)
    now S4 (loadProfileRow db inp.wallet_address)
    (findProfile_loadDB db inp.wallet_address) rfl
  refine ⟨addHist S4 S4, q, ?_, ?_, ?_, ?_, ?_, ?_⟩
  · rw [hrun]
  · exact hpm
  · exact ⟨newChallenges (preHandler db inp (afterLoad db inp)), rfl,
      mem_newChallenges _⟩
  · rw [hrun]
    exact hq
  · rw [hqlc]
    exact count_merge_one _ _ _ (mem_newChallenges _)
  · exact hqcc

/-- A first-contact user (no completed courses, no stored career
context) with a course active and a difficulty message. -/
def c8cex : StudentState :=
  { wallet_address := "0xw"
    last_message := "I am stuck on this"
    current_course_id := some 1
    current_chapter_title := some "Ch1"
    completed_courses := some [] }

/-- C8 counterexample: the first-contact rule precedes the in-course
rule, so this user's turn resolves to career mode, not learning mode —
the claim fails for users with no completed courses and no stored career
context, although a course is active and the message contains "stuck". -/
theorem c8_counterexample :
    c8cex.current_course_id = some 1 ∧
    containsSub (toLowerStr c8cex.last_message) "stuck" = true ∧
    (determine_mode c8cex).mode = "career" ∧
    (determine_mode c8cex).mode ≠ "learning" :=
  ⟨rfl, rfl, rfl, by decide⟩

/-- C8 (amended): for a turn with no onboarding payload, an empty
initial channel history, a truthy current course, a user who passes the
first-contact check (completed courses present or stored career context
non-empty), a difficulty keyword in the message and no
progress/recommendation keyword, the turn resolves to learning mode, the
patch's challenge list contains the chapter title (or default label),
and after persistence the stored list carries the title exactly once —
also after the same message is sent again in a second consecutive
turn. -/
theorem c8_amended (g : List Msg → String) (db : DB) (now1 now2 : Nat)
    (inp : StudentState)
    (honb : inp.onboarding_data = none)
    (hhist : inp.conversation_history = [])
    (hcid : truthyCourseId inp.current_course_id = true)
    (hfirst : (!truthyCourses inp.completed_courses
        && (toSnapshot (loadProfileRow db inp.wallet_address)).career_context.isEmpty)
        = false)
    (hkw : anyKw difficultyKws (toLowerStr inp.last_message) = true)
    (hnoprog : anyKw progressKws (toLowerStr inp.last_message) = false)
    (hnorec : anyKw recommendKws (toLowerStr inp.last_message) = false)
    (hnorec2 : anyKw recommendKws2 (toLowerStr inp.last_message) = false) :
    ∃ s4 q1,
      (runTurn (okLLM g) db now1 inp).1 = Except.ok s4 ∧
      s4.mode = "learning" ∧
      (∃ l, s4.profile_updates.learning_challenges = some l ∧
        pyOrStr inp.current_chapter_title "Current chapter" ∈ l) ∧
      findProfile (runTurn (okLLM g) db now1 inp).2.1 inp.wallet_address
        = some q1 ∧
      q1.learning_challenges.count
        (pyOrStr inp.current_chapter_title "Current chapter") = 1 ∧
      (∃ s4' q2,
        (runTurn (okLLM g) (runTurn (okLLM g) db now1 inp).2.1 now2 inp).1
          = Except.ok s4' ∧
        s4'.mode = "learning" ∧
        findProfile
          (runTurn (okLLM g) (runTurn (okLLM g) db now1 inp).2.1 now2 inp).2.1
          inp.wallet_address = some q2 ∧
        q2.learning_challenges.count
          (pyOrStr inp.current_chapter_title "Current chapter") = 1) := by
  obtain ⟨s4, q1, h1, h2, h3, h4, h5, h6⟩ :=
    learning_turn g db now1 inp honb hhist hcid hfirst hkw hnoprog hnorec hnorec2
  have hload2 : loadProfileRow (runTurn (okLLM g) db now1 inp).2.1
      inp.wallet_address = q1 := by
    unfold loadProfileRow
    rw [h4]
  have hfirst2 : (!truthyCourses inp.completed_courses
      && (toSnapshot (loadProfileRow (runTurn (okLLM g) db now1 inp).2.1
            inp.wallet_address)).career_context.isEmpty) = false := by
    rw [hload2]
    show (!truthyCourses inp.completed_courses
        && q1.career_context.isEmpty) = false
    rw [h6]
    exact hfirst
  obtain ⟨s4', q2, g1, g2, g3, g4, g5, g6⟩ :=
    learning_turn g (runTurn (okLLM g) db now1 inp).2.1 now2 inp honb hhist
      hcid hfirst2 hkw hnoprog hnorec hnorec2
  exact ⟨s4, q1, h1, h2, h3, h4, h5, s4', q2, g1, g2, g4, g5⟩

/-- An in-course user with completed courses reporting difficulty. -/
def c8winp : StudentState :=
  { wallet_address := "0xw"
    last_message := "I am stuck on this"
    current_course_id := some 1
    current_chapter_title := some "Ch1"
    completed_courses := some [[("title", JVal.jstr "Intro")]] }

/-- C8 witness: two consecutive concrete turns through the full graph. -/
theorem c8_witness :
    ∃ s4 q1,
      (runTurn (okLLM (fun _ => "reply")) { } 1 c8winp).1 = Except.ok s4 ∧
      s4.mode = "learning" ∧
      (∃ l, s4.profile_updates.learning_challenges = some l ∧
        pyOrStr c8winp.current_chapter_title "Current chapter" ∈ l) ∧
      findProfile (runTurn (okLLM (fun _ => "reply")) { } 1 c8winp).2.1
        c8winp.wallet_address = some q1 ∧
      q1.learning_challenges.count
        (pyOrStr c8winp.current_chapter_title "Current chapter") = 1 ∧
      (∃ s4' q2,
        (runTurn (okLLM (fun _ => "reply"))
          (runTurn (okLLM (fun _ => "reply")) { } 1 c8winp).2.1 2 c8winp).1
          = Except.ok s4' ∧
        s4'.mode = "learning" ∧
        findProfile
          (runTurn (okLLM (fun _ => "reply"))
            (runTurn (okLLM (fun _ => "reply")) { } 1 c8winp).2.1 2 c8winp).2.1
          c8winp.wallet_address = some q2 ∧
        q2.learning_challenges.count
          (pyOrStr c8winp.current_chapter_title "Current chapter") = 1) :=
  c8_amended (fun _ => "reply") { } 1 2 c8winp rfl rfl rfl rfl rfl rfl rfl rfl
